import Mathlib

/-!
Shallow embedding of the Forge Peptides backend (src/main.py): product
listing and filtering, single-product fetch, category listing and inquiry
submission over a document store.  Stored documents are modelled as records
of optional fields, a collection as a list of documents in store order,
floats as exact rationals, and store identifiers as their string forms.
The data-access helpers `create_document` and `get_documents` live in
database.py, which is not part of src/; they are modelled from the spec
where noted.  Timestamps stamped by the data-access layer are outside every
claim and are not modelled.
-/

namespace ForgePeptides

/-- A raw document of the `product` collection as stored: every field may be
absent.  `oid` models the document's `_id` (the string form of the
store-assigned identifier); a missing or empty `oid` models a missing or
falsy `_id`. -/
structure Doc where
  oid : Option String := none
  name : Option String := none
  sequence : Option String := none
  purity : Option ℚ := none
  description : Option String := none
  category : Option String := none
  length : Option ℤ := none
  datasheet_url : Option String := none
  image : Option String := none
deriving DecidableEq

/-- The response shape `ProductOut` of src/main.py lines 52-53: the validated
product fields plus the stringified identifier. -/
structure ProductOut where
  id : String
  name : String
  sequence : String
  purity : ℚ
  description : Option String
  category : String
  length : ℤ
  datasheet_url : Option String
  image : Option String
deriving DecidableEq

/-- Line 159: `str(d.get("_id")) if d.get("_id") else ""` — a missing or
falsy `_id` becomes the empty string. -/
def docIdStr : Option String → String
  | none => ""
  | some s => if s = "" then "" else s

/-- Pydantic validation of `ProductModel` (lines 41-49) applied to a raw
document as on line 160: `name`, `sequence`, `category` are required
strings, `purity` is required with `0 ≤ purity ≤ 100`, `length` is required
with `length ≥ 1`; `description`, `datasheet_url`, `image` are optional.
Returns `none` when validation fails (a `ValidationError` in the code). -/
def toProductOut (d : Doc) : Option ProductOut :=
  match d.name, d.sequence, d.purity, d.category, d.length with
  | some n, some s, some p, some c, some len =>
    if 0 ≤ p ∧ p ≤ 100 ∧ 1 ≤ len then
      some { id := docIdStr d.oid, name := n, sequence := s, purity := p,
             description := d.description, category := c, length := len,
             datasheet_url := d.datasheet_url, image := d.image }
    else none
  | _, _, _, _, _ => none

/-- The filter dictionary built by `list_products` (lines 143-154): an
optional exact match on `category`, an optional range (`$gte`/`$lte`) on
`length`, and an optional lower bound (`$gte`) on `purity`. -/
structure Query where
  category : Option String := none
  length : Option (Option ℤ × Option ℤ) := none
  purity_gte : Option ℚ := none
deriving DecidableEq

/-- Lines 143-154 of `list_products`: `if category:` adds the exact match
only for a truthy (non-empty) value; a length range is added when at least
one bound is supplied, holding exactly the supplied bounds; `purity_min`
becomes a `$gte` bound on `purity`. -/
def buildQuery (category : Option String) (length_min length_max : Option ℤ)
    (purity_min : Option ℚ) : Query :=
  { category := match category with
      | some c => if c = "" then none else some c
      | none => none
    length :=
      if length_min.isSome || length_max.isSome then some (length_min, length_max)
      else none
    purity_gte := purity_min }

/-- Store-side matching of the filter dictionary against a document: an
exact-match field requires the document field present and equal; a `$gte`
(`$lte`) operator requires the field present and the comparison to hold.  A
document missing a constrained field never matches. -/
def matchesQuery (q : Query) (d : Doc) : Bool :=
  (match q.category with
    | none => true
    | some c => d.category == some c) &&
  (match q.length with
    | none => true
    | some (lo, hi) =>
      match d.length with
      | none => false
      | some n =>
        (match lo with | none => true | some a => decide (a ≤ n)) &&
        (match hi with | none => true | some b => decide (n ≤ b))) &&
  (match q.purity_gte with
    | none => true
    | some m =>
      match d.purity with
      | none => false
      | some p => decide (m ≤ p))

/-- Modelled from the spec: `get_documents` (database.py, absent from src/)
executes a filter query against the named collection and returns all
matching records as an ordered sequence, in store order. -/
def get_documents (store : List Doc) (q : Query) : List Doc :=
  store.filter (matchesQuery q)

/-- Sequential validation of a list of documents, mirroring the loop on
lines 157-160: the first document failing validation aborts the whole
request with a `ValidationError` (`none`); otherwise all outputs are
collected in order. -/
def mapOption (f : α → Option β) : List α → Option (List β)
  | [] => some []
  | a :: l =>
    match f a with
    | none => none
    | some b =>
      match mapOption f l with
      | none => none
      | some bs => some (b :: bs)

/-- The `GET /api/products` handler (lines 134-161).  `none` models the
handler raising a validation error; `some l` models a successful JSON list
response.  An absent store (`db is None`) degrades to the empty list. -/
def list_products (db : Option (List Doc)) (category : Option String)
    (length_min length_max : Option ℤ) (purity_min : Option ℚ) :
    Option (List ProductOut) :=
  match db with
  | none => some []
  | some store =>
    mapOption toProductOut
      (get_documents store (buildQuery category length_min length_max purity_min))

/-- A hexadecimal digit, as accepted by bson's ObjectId string parser. -/
def isHexChar (c : Char) : Bool :=
  c.isDigit || (decide ('a' ≤ c) && decide (c ≤ 'f')) ||
    (decide ('A' ≤ c) && decide (c ≤ 'F'))

/-- Validity of a product-identifier string for `ObjectId(...)`: exactly 24
hexadecimal characters.  `ObjectId(s)` raises on anything else. -/
def isValidObjectId (s : String) : Bool :=
  (s.length == 24) && s.toList.all isHexChar

/-- The store's `find_one({"_id": ObjectId(pid)})` as used with an exception
handler that swallows the invalid-identifier error (inquiry enrichment,
lines 189-194): an invalid identifier resolves to nothing, a valid one to
the first document whose identifier equals it. -/
def find_one (store : List Doc) (pid : String) : Option Doc :=
  if isValidObjectId pid then store.find? (fun d => d.oid == some pid) else none

/-- Outcome of the `GET /api/products/{id}` handler: a product, a
404-equivalent not-found error, a 400-equivalent invalid-identifier error,
or an escaping validation error. -/
inductive GetResult where
  | ok (p : ProductOut)
  | notFound
  | invalidId
  | serverError
deriving DecidableEq

/-- The `GET /api/products/{id}` handler (lines 164-174): with no store it
raises 404; then `ObjectId(product_id)` failing raises 400; a missing
document raises 404; otherwise the document is validated into the response
(the found document's identifier equals the queried one, so its stringified
form is the 24-character query string itself). -/
def get_product (db : Option (List Doc)) (pid : String) : GetResult :=
  match db with
  | none => .notFound
  | some store =>
    if isValidObjectId pid then
      match store.find? (fun d => d.oid == some pid) with
      | none => .notFound
      | some d =>
        match toProductOut d with
        | some p => .ok p
        | none => .serverError
    else .invalidId

/-- The store's `distinct("category")` (line 181): the duplicate-free list
of `category` values present among stored documents. -/
def distinctCategories (store : List Doc) : List String :=
  (store.filterMap (fun d => d.category)).dedup

/-- The `GET /api/categories` handler (lines 177-181): the empty list with
no store, otherwise `sorted(distinct("category"))` in ascending
lexicographic order. -/
def categories (db : Option (List Doc)) : List String :=
  match db with
  | none => []
  | some store => (distinctCategories store).mergeSort (fun a b => decide (a ≤ b))

/-- The validated inquiry payload `InquiryModel` (lines 56-63); `type`
defaults to "contact", `organization` and `product_id` are optional. -/
structure InquiryModel where
  name : String
  email : String
  organization : Option String := none
  subject : String
  message : String
  type : String := "contact"
  product_id : Option String := none
deriving DecidableEq

/-- The dictionary persisted for an inquiry: the payload fields plus the
optional denormalized `product_name`. -/
structure InquiryData where
  name : String
  email : String
  organization : Option String
  subject : String
  message : String
  type : String
  product_id : Option String
  product_name : Option String := none
deriving DecidableEq

/-- Line 186: `payload.model_dump()` — the payload fields, with no
`product_name` yet. -/
def payloadData (p : InquiryModel) : InquiryData :=
  { name := p.name, email := p.email, organization := p.organization,
    subject := p.subject, message := p.message, type := p.type,
    product_id := p.product_id }

/-- Lines 186-194 of `submit_inquiry`: when `product_id` is truthy and the
store is present, try to resolve it; on success attach the found document's
`name` as `product_name`; a malformed identifier or a missing document
leaves the data unchanged (the exception is swallowed). -/
def inquiryData (db : Option (List Doc)) (p : InquiryModel) : InquiryData :=
  match p.product_id, db with
  | some pid, some store =>
    if pid = "" then payloadData p
    else
      match find_one store pid with
      | some d => { payloadData p with product_name := d.name }
      | none => payloadData p
  | _, _ => payloadData p

/-- The response body of `POST /api/inquiry`. -/
structure InquiryResponse where
  status : String
  id : Option String
  note : Option String := none
deriving DecidableEq

/-- The `POST /api/inquiry` handler (lines 184-200).  `insert` models
`create_document("inquiry", ...)` from database.py (absent from src/),
modelled from the spec: it persists the document and returns the new
identifier as a string, or fails (`none`) when the store is unreachable,
not configured, or rejects the write.  The handler returns the response
together with the persisted document, when one was persisted. -/
def submit_inquiry (db : Option (List Doc)) (insert : InquiryData → Option String)
    (p : InquiryModel) : InquiryResponse × Option InquiryData :=
  let data := inquiryData db p
  match insert data with
  | some i => ({ status := "ok", id := some i }, some data)
  | none =>
    ({ status := "ok", id := none,
       note := some "Database not configured in this preview" }, none)

/-- The four sample products of the seeding routine (lines 76-117), as the
documents the store holds after seeding an empty `product` collection; the
store assigns the identifiers. -/
def seedDocs (i1 i2 i3 i4 : String) : List Doc :=
  [ { oid := some i1, name := some "BPC-157",
      sequence := some "Gly-Glu-Pro-Pro-Pro-Gly-Lys-Pro-Ala-Asp-Asp-Ala-Gly-Leu-Val",
      purity := some 98.5, description := some ">98% purity, research-grade peptide",
      category := some "Bioactive Peptides", length := some 15,
      datasheet_url := some "https://example.com/datasheets/bpc-157.pdf",
      image := some "/vial.png" },
    { oid := some i2, name := some "GHRP-6",
      sequence := some "His-DTrp-Ala-Trp-DPhe-Lys-NH2",
      purity := some 99.2, description := some "HPLC purified, MS verified",
      category := some "Bioactive Peptides", length := some 6,
      datasheet_url := some "https://example.com/datasheets/ghrp6.pdf",
      image := some "/vial.png" },
    { oid := some i3, name := some "Magainin II",
      sequence := some "GIGKFLHSAKKFGKAFVGEIMNS",
      purity := some 98.0, description := some "Antibacterial peptide, >98%",
      category := some "Antibacterial", length := some 23,
      datasheet_url := some "https://example.com/datasheets/magainin2.pdf",
      image := some "/vial.png" },
    { oid := some i4, name := some "Palmitoyl Tripeptide-1",
      sequence := some "Palmitoyl-Gly-His-Lys",
      purity := some 98.7, description := some "Cosmetic grade, MS/HPLC documented",
      category := some "Cosmetic", length := some 3,
      datasheet_url := some "https://example.com/datasheets/pal-ghk.pdf",
      image := some "/vial.png" } ]

/-- A stored document is a well-formed product: the required fields are
present, purity lies in [0, 100] and length is at least 1. -/
def wellFormedDoc (d : Doc) : Bool :=
  d.name.isSome && d.sequence.isSome && d.category.isSome &&
  (match d.purity with | some p => decide (0 ≤ p) && decide (p ≤ 100) | none => false) &&
  (match d.length with | some n => decide (1 ≤ n) | none => false)

/-- A valid inquiry payload with no product reference, for concrete runs. -/
def inquiryPayload0 : InquiryModel :=
  { name := "Ada", email := "ada@example.com", subject := "Hello", message := "Hi" }

/-- A valid quote payload referencing product `aaaaaaaaaaaaaaaaaaaaaaaa`. -/
def inquiryPayload1 : InquiryModel :=
  { name := "Ada", email := "ada@example.com", subject := "Quote", message := "Hi",
    type := "quote", product_id := some "aaaaaaaaaaaaaaaaaaaaaaaa" }

/-- A well-formed stored product document, for concrete runs. -/
def prodDoc0 : Doc :=
  { oid := some "aaaaaaaaaaaaaaaaaaaaaaaa", name := some "BPC-157",
    sequence := some "SEQ", purity := some 98,
    category := some "Bioactive Peptides", length := some 15 }

/-- A well-formed stored document of category "A", for concrete runs. -/
def cexDoc : Doc :=
  { oid := some "bbbbbbbbbbbbbbbbbbbbbbbb", name := some "P", sequence := some "S",
    purity := some 98, category := some "A", length := some 5 }

/-- A stored document missing every required field. -/
def badDoc : Doc := { oid := some "cccccccccccccccccccccccc" }

/-- A well-formed stored document whose `_id` is missing. -/
def falsyDoc : Doc :=
  { oid := none, name := some "F", sequence := some "S", purity := some 50,
    category := some "C", length := some 2 }

/-- A well-formed stored document with purity 50 and length 2. -/
def goodDoc0 : Doc :=
  { oid := some "dddddddddddddddddddddddd", name := some "G", sequence := some "S",
    purity := some 50, category := some "C", length := some 2 }

/-- The response produced for `goodDoc0`. -/
def goodOut0 : ProductOut :=
  { id := "dddddddddddddddddddddddd", name := "G", sequence := "S", purity := 50,
    description := none, category := "C", length := 2, datasheet_url := none,
    image := none }

/-- The response produced for `falsyDoc`: its id degrades to the empty
string. -/
def falsyOut : ProductOut :=
  { id := "", name := "F", sequence := "S", purity := 50, description := none,
    category := "C", length := 2, datasheet_url := none, image := none }

theorem docIdStr_some (s : String) : docIdStr (some s) = s := by
  simp only [docIdStr]
  split <;> simp_all

theorem mapOption_isSome_iff {α β : Type} {f : α → Option β} {l : List α} :
    (mapOption f l).isSome ↔ ∀ a ∈ l, (f a).isSome := by
  induction l with
  | nil => simp [mapOption]
  | cons a l ih =>
    cases hfa : f a with
    | none =>
      simp only [mapOption, hfa]
      simp only [Option.isSome_none, Bool.false_eq_true, false_iff]
      intro hall
      have := hall a (List.mem_cons_self a l)
      rw [hfa] at this
      simp at this
    | some b =>
      cases hml : mapOption f l with
      | none =>
        simp only [mapOption, hfa, hml]
        simp only [Option.isSome_none, Bool.false_eq_true, false_iff]
        intro hall
        have : (mapOption f l).isSome := ih.mpr (fun x hx => hall x (List.mem_cons_of_mem a hx))
        rw [hml] at this
        simp at this
      | some bs =>
        simp only [mapOption, hfa, hml]
        simp only [Option.isSome_some, true_iff]
        intro x hx
        rcases List.mem_cons.mp hx with hx | hx
        · subst hx; simp [hfa]
        · have : (mapOption f l).isSome := by rw [hml]; simp
          exact ih.mp this x hx

theorem exists_of_mem_mapOption {α β : Type} {f : α → Option β} {l : List α}
    {bs : List β} {b : β} (h : mapOption f l = some bs) (hb : b ∈ bs) :
    ∃ a ∈ l, f a = some b := by
  induction l generalizing bs with
  | nil =>
    simp only [mapOption, Option.some.injEq] at h
    subst h
    cases hb
  | cons a l ih =>
    simp only [mapOption] at h
    cases hfa : f a with
    | none => rw [hfa] at h; cases h
    | some b0 =>
      rw [hfa] at h
      cases hml : mapOption f l with
      | none => rw [hml] at h; cases h
      | some bs0 =>
        rw [hml] at h
        injection h with h
        subst h
        rcases List.mem_cons.mp hb with hb | hb
        · exact ⟨a, List.mem_cons_self a l, by rw [hfa, hb]⟩
        · obtain ⟨x, hx, hfx⟩ := ih hml hb
          exact ⟨x, List.mem_cons_of_mem a hx, hfx⟩

theorem matchesQuery_category {q : Query} {d : Doc} {c : String}
    (hq : q.category = some c) (h : matchesQuery q d = true) : d.category = some c := by
  simp only [matchesQuery, hq, Bool.and_eq_true, beq_iff_eq] at h
  exact h.1.1

theorem matchesQuery_length {q : Query} {d : Doc} {lo hi : Option ℤ}
    (hq : q.length = some (lo, hi)) (h : matchesQuery q d = true) :
    ∃ n, d.length = some n ∧ (∀ a, lo = some a → a ≤ n) ∧ (∀ b, hi = some b → n ≤ b) := by
  simp only [matchesQuery, hq, Bool.and_eq_true] at h
  obtain ⟨⟨-, h2⟩, -⟩ := h
  cases hd : d.length with
  | none => rw [hd] at h2; simp at h2
  | some n =>
    rw [hd] at h2
    rw [Bool.and_eq_true] at h2
    refine ⟨n, rfl, ?_, ?_⟩
    · intro a ha
      have h3 := h2.1
      rw [ha] at h3
      exact of_decide_eq_true h3
    · intro b hbnd
      have h3 := h2.2
      rw [hbnd] at h3
      exact of_decide_eq_true h3

theorem matchesQuery_purity {q : Query} {d : Doc} {m : ℚ}
    (hq : q.purity_gte = some m) (h : matchesQuery q d = true) :
    ∃ p, d.purity = some p ∧ m ≤ p := by
  simp only [matchesQuery, hq, Bool.and_eq_true] at h
  obtain ⟨⟨-, -⟩, h3⟩ := h
  cases hd : d.purity with
  | none => rw [hd] at h3; simp at h3
  | some p =>
    rw [hd] at h3
    exact ⟨p, rfl, of_decide_eq_true h3⟩

theorem toProductOut_eq_some {d : Doc} {p : ProductOut} (h : toProductOut d = some p) :
    d.name = some p.name ∧ d.sequence = some p.sequence ∧ d.purity = some p.purity ∧
    d.category = some p.category ∧ d.length = some p.length ∧
    0 ≤ p.purity ∧ p.purity ≤ 100 ∧ 1 ≤ p.length ∧ p.id = docIdStr d.oid := by
  unfold toProductOut at h
  split at h
  · rename_i n s pr c len hn hs hpr hc hlen
    split at h
    · rename_i hrange
      injection h with h
      subst h
      exact ⟨hn, hs, hpr, hc, hlen, hrange.1, hrange.2.1, hrange.2.2, rfl⟩
    · cases h
  · cases h

theorem toProductOut_isSome_iff (d : Doc) :
    (toProductOut d).isSome = true ↔ wellFormedDoc d = true := by
  unfold toProductOut wellFormedDoc
  cases d.name <;> cases d.sequence <;> cases d.purity <;> cases d.category <;>
    cases d.length <;> simp
  tauto

theorem exists_doc_of_mem {store : List Doc} {c : Option String}
    {lmin lmax : Option ℤ} {pmin : Option ℚ} {l : List ProductOut} {p : ProductOut}
    (h : list_products (some store) c lmin lmax pmin = some l) (hp : p ∈ l) :
    ∃ d, d ∈ store ∧ matchesQuery (buildQuery c lmin lmax pmin) d = true ∧
      toProductOut d = some p := by
  unfold list_products at h
  obtain ⟨d, hd, hfd⟩ := exists_of_mem_mapOption h hp
  unfold get_documents at hd
  exact ⟨d, (List.mem_filter.mp hd).1, (List.mem_filter.mp hd).2, hfd⟩

/-- C1: the claim as frozen is false on the code.  With the store unavailable
(`db is None`, line 166) the handler raises the 404-equivalent not-found error
even for the syntactically invalid identifier "zz", because the store check
precedes identifier parsing; the claim demands the 400-equivalent error
regardless of store availability. -/
theorem c1_counterexample :
    isValidObjectId "zz" = false ∧ get_product none "zz" = GetResult.notFound ∧
      get_product none "zz" ≠ GetResult.invalidId :=
  ⟨by decide, rfl, by decide⟩

/-- C1 (amended): for every syntactically invalid product identifier, when the
store is available `GET /api/products/id` yields the 400-equivalent
invalid-identifier error, never not-found; when the store is unavailable it
yields the 404-equivalent not-found error. -/
theorem c1_invalid_identifier (store : List Doc) (pid : String)
    (h : isValidObjectId pid = false) :
    get_product (some store) pid = GetResult.invalidId ∧
      get_product none pid = GetResult.notFound := by
  constructor
  · simp [get_product, h]
  · rfl

theorem c1_witness :
    get_product (some []) "zz" = GetResult.invalidId ∧
      get_product none "zz" = GetResult.notFound :=
  c1_invalid_identifier [] "zz" (by decide)

/-- C2: for every valid inquiry payload `POST /api/inquiry` returns status
"ok" (the handler is a total function of the payload, the store and the
persistence outcome, so it never propagates an error); when persistence
succeeds the response id is the non-null new identifier, and when persistence
fails for any reason the response keeps the success shape with a null id and
an explanatory note. -/
theorem c2_inquiry_best_effort (db : Option (List Doc))
    (insert : InquiryData → Option String) (p : InquiryModel) :
    (submit_inquiry db insert p).1.status = "ok" ∧
    (∀ i, insert (inquiryData db p) = some i →
      (submit_inquiry db insert p).1.id = some i) ∧
    (insert (inquiryData db p) = none →
      (submit_inquiry db insert p).1.id = none ∧
        (submit_inquiry db insert p).1.note =
          some "Database not configured in this preview") := by
  unfold submit_inquiry
  cases h : insert (inquiryData db p) <;> simp [h]

theorem c2_witness :
    (submit_inquiry none (fun _ => some "abc123") inquiryPayload0).1.status = "ok" ∧
      (submit_inquiry none (fun _ => some "abc123") inquiryPayload0).1.id = some "abc123" := by
  have h := c2_inquiry_best_effort none (fun _ => some "abc123") inquiryPayload0
  exact ⟨h.1, h.2.1 "abc123" rfl⟩

/-- C3: the claim as frozen is false on the code.  Line 144 `if category:`
skips the filter for a supplied empty-string category, so the request returns
a product whose category "A" differs from the supplied value "". -/
theorem c3_counterexample :
    list_products (some [cexDoc]) (some "") none none none =
      some [{ id := "bbbbbbbbbbbbbbbbbbbbbbbb", name := "P", sequence := "S",
              purity := 98, description := none, category := "A", length := 5,
              datasheet_url := none, image := none }] ∧
    ("A" : String) ≠ "" := by
  exact ⟨rfl, by decide⟩

/-- C3 (amended): for every supplied non-empty category value, every product
returned by GET /api/products has a category field exactly equal to the
supplied value; a supplied empty category applies no constraint. -/
theorem c3_category_filter (db : Option (List Doc)) (c : String)
    (lmin lmax : Option ℤ) (pmin : Option ℚ) (l : List ProductOut) (p : ProductOut)
    (hne : c ≠ "") (h : list_products db (some c) lmin lmax pmin = some l)
    (hp : p ∈ l) : p.category = c := by
  cases db with
  | none =>
    simp only [list_products, Option.some.injEq] at h
    subst h
    exact absurd hp (List.not_mem_nil p)
  | some store =>
    obtain ⟨d, -, hm, hto⟩ := exists_doc_of_mem h hp
    have hq : (buildQuery (some c) lmin lmax pmin).category = some c := by
      simp [buildQuery, hne]
    have hdc := matchesQuery_category hq hm
    have hfields := toProductOut_eq_some hto
    rw [hfields.2.2.2.1] at hdc
    exact Option.some.inj hdc

theorem c3_witness :
    ({ id := "bbbbbbbbbbbbbbbbbbbbbbbb", name := "P", sequence := "S", purity := 98,
       description := none, category := "A", length := 5, datasheet_url := none,
       image := none } : ProductOut).category = "A" :=
  c3_category_filter (some [cexDoc]) "A" none none none _ _ (by decide) rfl
    (List.mem_singleton.mpr rfl)

/-- C4: for every valid inquiry payload whose product_id resolves to an
existing product document, the persisted inquiry's product_name equals that
product's name. -/
theorem c4_inquiry_enrichment (store : List Doc) (insert : InquiryData → Option String)
    (p : InquiryModel) (pid : String) (d : Doc) (nm : String)
    (r : InquiryResponse) (q : InquiryData)
    (hpid : p.product_id = some pid) (hne : pid ≠ "")
    (hfind : find_one store pid = some d) (hname : d.name = some nm)
    (hsub : submit_inquiry (some store) insert p = (r, some q)) :
    q.product_name = some nm := by
  have hq : q = inquiryData (some store) p := by
    unfold submit_inquiry at hsub
    cases hi : insert (inquiryData (some store) p) <;> simp [hi] at hsub
    exact hsub.2.symm
  subst hq
  simp only [inquiryData, hpid]
  simp [hne, hfind, hname]

theorem c4_witness :
    (inquiryData (some [prodDoc0]) inquiryPayload1).product_name = some "BPC-157" :=
  c4_inquiry_enrichment [prodDoc0] (fun _ => some "x1") inquiryPayload1
    "aaaaaaaaaaaaaaaaaaaaaaaa" prodDoc0 "BPC-157"
    { status := "ok", id := some "x1" }
    (inquiryData (some [prodDoc0]) inquiryPayload1)
    rfl (by decide) (by decide) rfl rfl

/-- C5: every product returned by GET /api/products satisfies each supplied
length bound inclusively: a supplied length_min lower-bounds the length and a
supplied length_max upper-bounds it; an absent bound imposes nothing.  In
particular this holds for all supplied bounds with length_min ≤ length_max. -/
theorem c5_length_bounds (db : Option (List Doc)) (c : Option String)
    (lmin lmax : Option ℤ) (pmin : Option ℚ) (l : List ProductOut) (p : ProductOut)
    (h : list_products db c lmin lmax pmin = some l) (hp : p ∈ l) :
    (∀ a, lmin = some a → a ≤ p.length) ∧ (∀ b, lmax = some b → p.length ≤ b) := by
  cases db with
  | none =>
    simp only [list_products, Option.some.injEq] at h
    subst h
    exact absurd hp (List.not_mem_nil p)
  | some store =>
    obtain ⟨d, -, hm, hto⟩ := exists_doc_of_mem h hp
    have hfields := toProductOut_eq_some hto
    by_cases hnone : lmin = none ∧ lmax = none
    · obtain ⟨h1, h2⟩ := hnone
      subst h1
      subst h2
      constructor <;> intro x hx <;> cases hx
    · have hcond : (lmin.isSome || lmax.isSome) = true := by
        cases lmin <;> cases lmax <;> simp_all
      have hq : (buildQuery c lmin lmax pmin).length = some (lmin, lmax) := by
        simp [buildQuery, hcond]
      obtain ⟨n, hdl, hlo, hhi⟩ := matchesQuery_length hq hm
      rw [hfields.2.2.2.2.1] at hdl
      have hn := Option.some.inj hdl
      constructor
      · intro a ha
        rw [hn]
        exact hlo a ha
      · intro b hb
        rw [hn]
        exact hhi b hb

theorem c5_witness :
    (∀ a, (some 1 : Option ℤ) = some a → a ≤ goodOut0.length) ∧
      (∀ b, (some 5 : Option ℤ) = some b → goodOut0.length ≤ b) :=
  c5_length_bounds (some [goodDoc0]) none (some 1) (some 5) none [goodOut0] goodOut0
    rfl (List.mem_singleton.mpr rfl)

/-- C6: for every supplied purity_min value, every product returned by
GET /api/products satisfies purity_min ≤ purity. -/
theorem c6_purity_bound (db : Option (List Doc)) (c : Option String)
    (lmin lmax : Option ℤ) (m : ℚ) (l : List ProductOut) (p : ProductOut)
    (h : list_products db c lmin lmax (some m) = some l) (hp : p ∈ l) :
    m ≤ p.purity := by
  cases db with
  | none =>
    simp only [list_products, Option.some.injEq] at h
    subst h
    exact absurd hp (List.not_mem_nil p)
  | some store =>
    obtain ⟨d, -, hm, hto⟩ := exists_doc_of_mem h hp
    have hq : (buildQuery c lmin lmax (some m)).purity_gte = some m := rfl
    obtain ⟨x, hdx, hmx⟩ := matchesQuery_purity hq hm
    rw [(toProductOut_eq_some hto).2.2.1] at hdx
    rw [Option.some.inj hdx]
    exact hmx

theorem c6_witness : (50 : ℚ) ≤ goodOut0.purity :=
  c6_purity_bound (some [goodDoc0]) none none none 50 [goodOut0] goodOut0 rfl
    (List.mem_singleton.mpr rfl)

/-- C7: GET /api/categories returns a strictly sorted (lexicographically
ascending), duplicate-free sequence whose elements are exactly the distinct
category values among stored products, and the empty sequence when the store
is unavailable. -/
theorem c7_categories (store : List Doc) :
    categories none = [] ∧
    (categories (some store)).Pairwise (fun a b => a < b) ∧
    (∀ a, a ∈ categories (some store) ↔ ∃ d ∈ store, d.category = some a) := by
  refine ⟨rfl, ?_, ?_⟩
  · have hpar : (categories (some store)).Pairwise (fun a b => decide (a ≤ b) = true) := by
      unfold categories
      exact List.sorted_mergeSort
        (by intro a b c hab hbc; simp only [decide_eq_true_eq] at *; exact le_trans hab hbc)
        (by intro a b; simpa using le_total a b) _
    have hnodup : (categories (some store)).Nodup := by
      unfold categories
      exact (List.mergeSort_perm _ _).nodup_iff.mpr (List.nodup_dedup _)
    exact (hpar.and hnodup).imp
      (fun hab => lt_of_le_of_ne (by simpa using hab.1) hab.2)
  · intro a
    simp [categories, distinctCategories, List.mem_filterMap]

/-- C8: after seeding an empty product collection with the four sample
peptides (for any store-assigned identifiers), GET /api/products with
purity_min = 99 returns exactly one product, GHRP-6, the only seeded product
with purity at least 99. -/
theorem c8_seeded_purity_filter (i1 i2 i3 i4 : String) :
    list_products (some (seedDocs i1 i2 i3 i4)) none none none (some 99) =
      some [{ id := i2, name := "GHRP-6", sequence := "His-DTrp-Ala-Trp-DPhe-Lys-NH2",
              purity := 99.2, description := some "HPLC purified, MS verified",
              category := "Bioactive Peptides", length := 6,
              datasheet_url := some "https://example.com/datasheets/ghrp6.pdf",
              image := some "/vial.png" }] := by
  simp only [list_products, get_documents, seedDocs, buildQuery]
  norm_num [List.filter_cons, List.filter_nil, matchesQuery, mapOption, toProductOut,
    docIdStr_some]

/-- C9: supplying category as the empty string is identical to omitting the
category parameter: no category constraint is applied, so GET /api/products
returns the same result in both cases. -/
theorem c9_empty_category_ignored (db : Option (List Doc)) (lmin lmax : Option ℤ)
    (pmin : Option ℚ) :
    list_products db (some "") lmin lmax pmin = list_products db none lmin lmax pmin := by
  cases db <;> rfl

/-- C10: GET /api/products succeeds exactly when every document matching the
filter is a well-formed product (required fields present, purity in [0, 100],
length at least 1); a matching document failing validation makes the handler
fail with a validation error instead of returning a list, while a validated
document whose `_id` is missing or falsy is returned with an empty-string
id. -/
theorem c10_products_validation (store : List Doc) (c : Option String)
    (lmin lmax : Option ℤ) (pmin : Option ℚ) :
    ((list_products (some store) c lmin lmax pmin).isSome ↔
      ∀ d ∈ get_documents store (buildQuery c lmin lmax pmin), wellFormedDoc d = true) ∧
    (∀ d p, toProductOut d = some p → (d.oid = none ∨ d.oid = some "") → p.id = "") := by
  constructor
  · unfold list_products
    rw [mapOption_isSome_iff]
    constructor
    · intro h d hd
      exact (toProductOut_isSome_iff d).mp (h d hd)
    · intro h d hd
      exact (toProductOut_isSome_iff d).mpr (h d hd)
  · intro d p hto hoid
    have hid := (toProductOut_eq_some hto).2.2.2.2.2.2.2.2
    rcases hoid with h0 | h0 <;> rw [h0] at hid <;> simpa [docIdStr] using hid

theorem c10_witness :
    list_products (some [badDoc]) none none none none = none ∧ falsyOut.id = "" := by
  have h := c10_products_validation [badDoc] none none none none
  constructor
  · have hbad : ¬ ∀ d ∈ get_documents [badDoc] (buildQuery none none none none),
        wellFormedDoc d = true :=
      fun hall => absurd (hall badDoc (by decide)) (by decide)
    have hns : ¬ (list_products (some [badDoc]) none none none none).isSome :=
      fun hs => hbad (h.1.mp hs)
    exact Option.not_isSome_iff_eq_none.mp hns
  · exact h.2 falsyDoc falsyOut (by decide) (Or.inl rfl)

end ForgePeptides
